import Mathlib

/-!
# file-sink: the synchronisation core of `src/main.cpp`

A shallow embedding of the parts of `main.cpp` that decide what is uploaded and when:
the change loop at the end of `app_update`, `upload_file` with `read_entire_file`,
`server_connect` and its caller, the two directory listings, the life cycle of the
`FileWatcher` with `watcher_poll`, and `read_config`.

Conventions.
* A `std::string` is a `String` whose characters stand for its bytes, so `<` on `String`
  (lexicographic, by character code) is `std::string::operator<`.
* Results of operating-system and library calls are inputs of the embedded function, under
  the name of the call.
* A pointer or handle is a number; `0` is `nullptr`.
* The program is a Windows program (`WinMain`, `CreateFile`, `ReadDirectoryChangesW`): a
  stream opened without `std::ios::binary` reads in text mode.
-/

namespace FileSink

/-! ## Data model (`main.cpp` lines 36-86) -/

/-- The `enum class FileKind`. -/
inductive FileKind where
  | None
  | File
  | Dir
  deriving DecidableEq, Repr

/-- The `struct File`: one entry of a directory listing. -/
structure File where
  name : String
  kind : FileKind := FileKind.None
  size : Nat := 0
  deriving DecidableEq, Repr

/-- The `struct Net`. The default value is the disconnected one: all handles unset. -/
structure Net where
  session : Nat := 0
  sftp : Nat := 0
  sock : Nat := 0
  deriving DecidableEq, Repr

/-- The `struct FileChange`: `type` holds the `Action` of the notification record. -/
structure FileChange where
  filename : String
  type : Int := 0
  deriving DecidableEq, Repr

/-- The `std::unordered_map<std::string, i64>` of `FileWatcher::modtimes`: a key is either
absent (`none`) or bound to a value. -/
abbrev ModTimes := String → Option Int

/-- The map a default-constructed `FileWatcher` holds. -/
def ModTimes.empty : ModTimes := fun _ => none

/-- The statement `m[k] = v`. -/
def ModTimes.assign (m : ModTimes) (k : String) (v : Int) : ModTimes :=
  fun k' => if k' = k then some v else m k'

/-- The expression `m[k]` read as a value: `std::unordered_map::operator[]` inserts a
value-initialised element (`0`) when `k` is absent, and yields the element. The map after
the expression is returned with the value. -/
def ModTimes.index (m : ModTimes) (k : String) : ModTimes × Int :=
  match m k with
  | some v => (m, v)
  | none => (m.assign k 0, 0)

/-- The Windows constant `INVALID_HANDLE_VALUE`, `(HANDLE)-1`. -/
def INVALID_HANDLE_VALUE : Int := -1

/-- The `struct FileWatcher` (lines 68-77). `hEvent` is `overlapped.hEvent`. -/
structure FileWatcher where
  hEvent : Int := 0
  dir : Int := INVALID_HANDLE_VALUE
  buf : Nat := 0
  buf_size : Nat := 0
  changes : List FileChange := []
  modtimes : ModTimes := ModTimes.empty

/-- The method `FileWatcher::running`. -/
def FileWatcher.running (w : FileWatcher) : Bool :=
  decide (w.dir ≠ INVALID_HANDLE_VALUE)

/-- The fields of `struct App` that the synchronisation core touches. -/
structure App where
  local_working_dir : List File := []
  remote_working_dir : List File := []
  watcher_log : List String := []

/-! ## The change loop of `app_update` (lines 762-777) -/

/-- The Windows SDK constants for `FILE_NOTIFY_INFORMATION::Action`. -/
def FILE_ACTION_ADDED : Int := 1
def FILE_ACTION_REMOVED : Int := 2
def FILE_ACTION_MODIFIED : Int := 3
def FILE_ACTION_RENAMED_OLD_NAME : Int := 4
def FILE_ACTION_RENAMED_NEW_NAME : Int := 5

/-- What the body of the loop observes for one change: the answers of
`fs::is_regular_file(local)` and `fs::last_write_time(local)` for
`local = config->local_dir / change.filename`, and the value `upload_file` returns. -/
structure Observed where
  is_regular_file : Bool
  last_write_time : Int
  upload_file : Bool
  deriving DecidableEq, Repr

/-- The state the loop works on: the watcher, the application, and the record of the calls
of `upload_file` made so far (file name and returned value), oldest first. -/
structure Sync where
  watcher : FileWatcher := {}
  app : App := {}
  uploads : List (String × Bool) := []

/-- One iteration of `for (auto &change : watcher->changes)`: the `switch` on
`change.type` with its single `case FILE_ACTION_MODIFIED`. -/
def process_change (s : Sync) (change : FileChange) (o : Observed) : Sync :=
  if change.type = FILE_ACTION_MODIFIED then
    if o.is_regular_file then
      let modified := o.last_write_time
      let (m, stored) := s.watcher.modtimes.index change.filename
      if stored < modified then
        { watcher := { s.watcher with modtimes := m.assign change.filename modified }
          app := { s.app with watcher_log := s.app.watcher_log ++ [change.filename ++ ": modified"] }
          uploads := s.uploads ++ [(change.filename, o.upload_file)] }
      else
        { s with watcher := { s.watcher with modtimes := m } }
    else s
  else s

/-- The whole loop over one batch, each change with what is observed when it is handled. -/
def process_changes (s : Sync) (batch : List (FileChange × Observed)) : Sync :=
  batch.foldl (fun acc e => process_change acc e.1 e.2) s

/-- The states of a watch session: the state before the first change and the state after
each change, in time order. -/
def trajectory (s : Sync) (events : List (FileChange × Observed)) : List Sync :=
  events.scanl (fun acc e => process_change acc e.1 e.2) s

/-- The states of a watch session between batches: the state before the first batch and
the state after each batch, in time order. -/
def session (s : Sync) (batches : List (List (FileChange × Observed))) : List Sync :=
  batches.scanl process_changes s

/-- The order on stored timestamps in which an absent entry is below every value. -/
def stored_le : Option Int → Option Int → Prop
  | none, _ => True
  | some _, none => False
  | some a, some b => a ≤ b

instance (a b : Option Int) : Decidable (stored_le a b) := by
  cases a <;> cases b <;> unfold stored_le <;> infer_instance

/-- The value `modtimes[k]` would yield: the bound value, `0` for an absent key. -/
def ModTimes.read (m : ModTimes) (k : String) : Int := (m.index k).2

/-! ## `read_entire_file` and `upload_file` (lines 190-197, 498-534) -/

/-- The byte 0x1A (CTRL+Z), which ends a file that is read in text mode. -/
def CTRLZ : Char := Char.ofNat 0x1A

/-- What a stream opened in text mode delivers of the bytes of a file: the bytes before
the first 0x1A, with each pair CR LF delivered as LF. -/
def text_mode : List Char → List Char
  | [] => []
  | c :: rest =>
    if c = CTRLZ then []
    else if c = '\r' ∧ rest.head? = some '\n' then text_mode rest
    else c :: text_mode rest

/-- The function `read_entire_file`. `disk` holds the bytes of the file at the path, `none`
when the file cannot be opened. `file.open(path)` opens in text mode, so the string returned
is what text mode delivers of the bytes. When the open fails, `oss << file.rdbuf()` inserts
nothing and `oss.str()` is the empty string; the returned `std::optional` is engaged on
every path. -/
def read_entire_file (disk : Option String) : Option String :=
  match disk with
  | some contents => some (String.mk (text_mode contents.data))
  | none => some ""

/-- A file that text mode delivers as it is: it holds no 0x1A and no pair CR LF. -/
def plain : List Char → Bool
  | [] => true
  | c :: rest =>
    !decide (c = CTRLZ) && !decide (c = '\r' ∧ rest.head? = some '\n') && plain rest

/-- What `upload_file` is given from outside: whether `libssh2_sftp_open_ex` returned a
handle, what the local path holds, and the values the successive calls of
`libssh2_sftp_write` return. -/
structure Transfer where
  open_ok : Bool
  disk : Option String
  writes : List Int

/-- How `upload_file` ends. `ret` is the returned value, `none` when the loop is still
running after all the given write results are used up. `sent` is `ptr` as an offset from
the start of the buffer and `len` is the variable `len`, both at that point; `requests`
lists the (offset, count) pairs passed to `libssh2_sftp_write`, oldest first. -/
structure Upload where
  ret : Option Bool
  sent : Int := 0
  len : Nat := 0
  requests : List (Int × Nat) := []
  deriving DecidableEq, Repr

/-- The statement `len -= read` on a `u64` with an `i64` operand. -/
def u64_sub (len : Nat) (read : Int) : Nat :=
  (((len : Int) - read) % (2 : Int) ^ 64).toNat

/-- The loop `while (true)` of `upload_file` (lines 520-533). -/
def write_loop : List Int → Int → Nat → List (Int × Nat) → Upload
  | [], ptr, len, reqs => { ret := none, sent := ptr, len := len, requests := reqs }
  | read :: rest, ptr, len, reqs =>
    if read < 0 then
      { ret := some false, sent := ptr, len := len, requests := reqs ++ [(ptr, len)] }
    else if read = 0 then
      { ret := some true, sent := ptr, len := len, requests := reqs ++ [(ptr, len)] }
    else
      write_loop rest (ptr + read) (u64_sub len read) (reqs ++ [(ptr, len)])

/-- The function `upload_file`. -/
def upload_file (t : Transfer) : Upload :=
  if !t.open_ok then { ret := some false }
  else
    match read_entire_file t.disk with
    | none => { ret := some false }
    | some file_contents => write_loop t.writes 0 file_contents.length []

/-- A condition on the transport: every call of `libssh2_sftp_write` that the loop makes
returns at most the count it was given, and does not return 0 while the count is positive. -/
def accepts_within : List Int → Nat → Prop
  | [], _ => True
  | read :: rest, len =>
    (read ≤ len ∧ (0 < len → read ≠ 0)) ∧ (0 < read → accepts_within rest (u64_sub len read))

instance accepts_within_decidable :
    ∀ (ws : List Int) (len : Nat), Decidable (accepts_within ws len)
  | [], _ => isTrue trivial
  | read :: rest, len =>
    have := accepts_within_decidable rest (u64_sub len read)
    by unfold accepts_within; infer_instance

/-! ## `server_connect` and the connect button (lines 330-391, 563-575) -/

/-- The library function `strstr`, as a test: does `needle` occur in `hay`. -/
def starts_with : List Char → List Char → Bool
  | _, [] => true
  | [], _ :: _ => false
  | h :: hs, n :: ns => h == n && starts_with hs ns

def strstr : List Char → List Char → Bool
  | [], needle => starts_with [] needle
  | h :: hs, needle => starts_with (h :: hs) needle || strstr hs needle

/-- The values the calls made by `server_connect` return: `socket`, `connect`,
`libssh2_session_init`, `libssh2_session_handshake`, `libssh2_userauth_list` (a non-null
string), `libssh2_userauth_publickey_fromfile` and `libssh2_sftp_init`. -/
structure Server where
  socket : Nat
  connect : Int
  session_init : Nat
  handshake : Int
  userauth_list : String
  userauth_publickey : Int
  sftp_init : Nat
  deriving DecidableEq, Repr

/-- The calls `server_connect` makes that reach the network or the SSH library. -/
inductive Call where
  | socket
  | connect
  | session_init
  | session_set_blocking
  | handshake
  | userauth_list
  | userauth_publickey
  | sftp_init
  deriving DecidableEq, Repr

/-- The function `server_connect`: the returned `std::optional<Net>` and the calls made,
oldest first. -/
def server_connect (e : Server) : Option Net × List Call :=
  let made₁ := [Call.socket, Call.connect]
  if e.connect ≠ 0 then (none, made₁) else
  let made₂ := made₁ ++ [Call.session_init]
  if e.session_init = 0 then (none, made₂) else
  let made₃ := made₂ ++ [Call.session_set_blocking, Call.handshake]
  if e.handshake ≠ 0 then (none, made₃) else
  let made₄ := made₃ ++ [Call.userauth_list]
  if !strstr e.userauth_list.data "publickey".data then (none, made₄) else
  let made₅ := made₄ ++ [Call.userauth_publickey]
  if e.userauth_publickey ≠ 0 then (none, made₅) else
  let made₆ := made₅ ++ [Call.sftp_init]
  if e.sftp_init = 0 then (none, made₆) else
  (some { session := e.session_init, sftp := e.sftp_init, sock := e.socket }, made₆)

/-- The effect of the connect button of `app_update` on `*net`:
`if (connect) { *net = *connect; ... }`. -/
def connect_button (e : Server) (net : Net) : Net :=
  match (server_connect e).1 with
  | some connect => connect
  | none => net

/-! ## Directory listings (lines 418-484) -/

/-- The `struct Config`. -/
structure Config where
  user : String := ""
  host : String := ""
  priv_key : String := ""
  local_dir : String := ""
  remote_dir : String := ""
  deriving DecidableEq, Repr

/-- The algorithm `std::sort(first, last, comp)`. The standard fixes its result only as a
rearrangement that `comp` orders; the embedding is the insertion sort that consults
nothing but `comp`. -/
def std_sort {α : Type} (comp : α → α → Bool) (l : List α) : List α :=
  l.insertionSort (fun a b => comp b a = false)

/-- The libssh2 constants `LIBSSH2_SFTP_S_IFDIR` and `LIBSSH2_SFTP_ATTR_SIZE`. -/
def LIBSSH2_SFTP_S_IFDIR : Nat := 0o040000
def LIBSSH2_SFTP_ATTR_SIZE : Nat := 0x00000001

/-- The fields of `LIBSSH2_SFTP_ATTRIBUTES` that `read_remote_dir` reads. -/
structure Attributes where
  flags : Nat := 0
  filesize : Nat := 0
  permissions : Nat := 0
  deriving DecidableEq, Repr

/-- One call of `libssh2_sftp_readdir`: the returned length, the name written to `buf`
and the attributes. -/
structure Readdir where
  len : Int
  buf : String
  attrs : Attributes := {}
  deriving DecidableEq, Repr

/-- The loop `while (true)` of `read_remote_dir` (lines 429-455): `dir` is the vector
built so far. When the given results are used up the enumeration has ended. -/
def read_entries : List Readdir → List File → List File
  | [], dir => dir
  | r :: rest, dir =>
    if r.len ≤ 0 then dir
    else if r.buf = "." ∨ r.buf = ".." then read_entries rest dir
    else
      read_entries rest (dir ++ [{
        name := r.buf
        kind := if r.attrs.permissions &&& LIBSSH2_SFTP_S_IFDIR ≠ 0 then FileKind.Dir
          else FileKind.File
        size := if r.attrs.flags &&& LIBSSH2_SFTP_ATTR_SIZE ≠ 0 then r.attrs.filesize else 0 }])

/-- The function `read_remote_dir`. `handle` is `none` when `libssh2_sftp_open_ex`
returns a null handle, and otherwise holds what the calls of `libssh2_sftp_readdir` on the
handle return. -/
def read_remote_dir (handle : Option (List Readdir)) : Option (List File) :=
  match handle with
  | none => none
  | some results =>
    some (std_sort (fun lhs rhs => decide (lhs.name < rhs.name)) (read_entries results []))

/-- One element of `fs::directory_iterator(path)`: `e.path().filename().string()`,
`e.is_directory()` and `e.file_size()`. -/
structure DirectoryEntry where
  filename : String
  is_directory : Bool
  file_size : Nat
  deriving DecidableEq, Repr

/-- The function `change_local_dir`; `entries` is what the directory iterator yields, in
the order it yields it. -/
def change_local_dir (app : App) (config : Config) (path : String)
    (entries : List DirectoryEntry) : App × Config :=
  ({ app with
      local_working_dir := entries.map (fun e =>
        { name := e.filename
          kind := if e.is_directory then FileKind.Dir else FileKind.File
          size := e.file_size }) },
   { config with local_dir := path })

/-! ## Starting and stopping the watcher (lines 92-137, 729-741) -/

/-- The Windows SDK constants of the notify filter. -/
def FILE_NOTIFY_CHANGE_FILE_NAME : Nat := 0x00000001
def FILE_NOTIFY_CHANGE_DIR_NAME : Nat := 0x00000002
def FILE_NOTIFY_CHANGE_LAST_WRITE : Nat := 0x00000010

/-- The arguments of a call of `ReadDirectoryChangesW` that select what is reported. -/
structure NotifyRequest where
  nBufferLength : Nat
  bWatchSubtree : Bool
  dwNotifyFilter : Nat
  deriving DecidableEq, Repr

/-- The values the calls made by `watcher_init` return: `CreateFile`, `CreateEvent`,
`malloc` and `ReadDirectoryChangesW`. -/
structure InitCalls where
  CreateFile : Int
  CreateEvent : Int
  malloc : Nat
  ReadDirectoryChangesW : Bool
  deriving DecidableEq, Repr

/-- The function `watcher_init`: the watcher afterwards and the notification request it
issues. -/
def watcher_init (watcher : FileWatcher) (e : InitCalls) : FileWatcher × NotifyRequest :=
  ({ watcher with dir := e.CreateFile, hEvent := e.CreateEvent, buf := e.malloc, buf_size := 4096 },
   { nBufferLength := 4096
     bWatchSubtree := true
     dwNotifyFilter := FILE_NOTIFY_CHANGE_FILE_NAME ||| FILE_NOTIFY_CHANGE_DIR_NAME |||
       FILE_NOTIFY_CHANGE_LAST_WRITE })

/-- The function `watcher_destroy`; the two arguments are the values of
`CloseHandle(watcher->overlapped.hEvent)` and `CloseHandle(watcher->dir)`. -/
def watcher_destroy (watcher : FileWatcher) (close_hEvent close_dir : Bool) :
    Bool × FileWatcher :=
  if !close_hEvent then (false, watcher)
  else if !close_dir then (false, watcher)
  else (true, {})

/-! ## `watcher_poll` (lines 139-188) -/

/-- The Windows constant `WAIT_OBJECT_0`. -/
def WAIT_OBJECT_0 : Nat := 0

/-- One `FILE_NOTIFY_INFORMATION` record; `FileName` holds the wide characters that
follow the header. -/
structure NotifyInformation where
  NextEntryOffset : Nat
  Action : Nat
  FileNameLength : Nat
  FileName : List Nat
  deriving DecidableEq, Repr

/-- What `watcher_poll` is given from outside: the value of `WaitForSingleObject` and the
records that `watcher->buf` holds when it is read, each one at the `NextEntryOffset` of the
one before it. -/
structure PollCalls where
  WaitForSingleObject : Nat
  buffer : List NotifyInformation
  deriving DecidableEq, Repr

/-- The conversion of a `DWORD` to `i32` in `change.type = info->Action`. -/
def dword_to_i32 (n : Nat) : Int :=
  if n % 2 ^ 32 < 2 ^ 31 then ((n % 2 ^ 32 : Nat) : Int) else ((n % 2 ^ 32 : Nat) : Int) - 2 ^ 32

/-- The loop `while (true)` of `watcher_poll` (lines 161-181). The library function
`wcstombs_s` is a parameter: given the wide characters to convert it yields the
multibyte string, or `none` when it returns a non-zero `errno_t`. -/
def drain (wcstombs_s : List Nat → Option String) :
    List NotifyInformation → List FileChange → List FileChange
  | [], changes => changes
  | info :: next, changes =>
    let changes :=
      if info.Action ≠ 0 then
        match wcstombs_s (info.FileName.take (info.FileNameLength / 2)) with
        | some filename => changes ++ [{ filename := filename, type := dword_to_i32 info.Action }]
        | none => changes
      else changes
    if info.NextEntryOffset ≠ 0 then drain wcstombs_s next changes else changes

/-- The function `watcher_poll`: the watcher afterwards, and the notification request of
the closing `ReadDirectoryChangesW` when that call is reached. -/
def watcher_poll (wcstombs_s : List Nat → Option String) (watcher : FileWatcher)
    (e : PollCalls) : FileWatcher × Option NotifyRequest :=
  let watcher := { watcher with changes := [] }
  if !watcher.running then (watcher, none)
  else if watcher.hEvent = 0 then (watcher, none)
  else if e.WaitForSingleObject ≠ WAIT_OBJECT_0 then (watcher, none)
  else
    ({ watcher with changes := drain wcstombs_s e.buffer watcher.changes },
     some { nBufferLength := watcher.buf_size
            bWatchSubtree := true
            dwNotifyFilter := FILE_NOTIFY_CHANGE_FILE_NAME ||| FILE_NOTIFY_CHANGE_DIR_NAME |||
              FILE_NOTIFY_CHANGE_LAST_WRITE })

/-- The records of one notification as the operating system delivers them: the first
record of the buffer and each record that a non-zero `NextEntryOffset` leads to. -/
def delivered : List NotifyInformation → List NotifyInformation
  | [] => []
  | info :: next => info :: (if info.NextEntryOffset ≠ 0 then delivered next else [])

/-- The change a delivered record stands for: none when its action is 0 or its file name
does not convert. -/
def decoded (wcstombs_s : List Nat → Option String) (info : NotifyInformation) :
    Option FileChange :=
  if info.Action ≠ 0 then
    (wcstombs_s (info.FileName.take (info.FileNameLength / 2))).map
      (fun filename => { filename := filename, type := dword_to_i32 info.Action })
  else none

/-! ## `read_config` (lines 199-238) -/

theorem stored_le_refl (a : Option Int) : stored_le a a := by
  cases a <;> simp [stored_le]

theorem stored_le_trans {a b c : Option Int} (h₁ : stored_le a b) (h₂ : stored_le b c) :
    stored_le a c := by
  cases a <;> cases b <;> cases c <;> simp_all [stored_le]
  omega

/-- A change that is not `FILE_ACTION_MODIFIED` falls through the `switch`. -/
theorem process_change_other (s : Sync) (change : FileChange) (o : Observed)
    (h : change.type ≠ FILE_ACTION_MODIFIED) : process_change s change o = s := by
  simp [process_change, h]

/-- A change to a file whose stored timestamp is not below the observed one leaves the
whole state as it is. -/
theorem process_change_not_newer (s : Sync) (change : FileChange) (o : Observed) (stored : Int)
    (hs : s.watcher.modtimes change.filename = some stored)
    (hle : o.last_write_time ≤ stored) : process_change s change o = s := by
  unfold process_change
  split
  · split
    · simp only [ModTimes.index, hs]
      rw [if_neg (not_lt.mpr hle)]
    · rfl
  · rfl

/-- One iteration never lowers the stored timestamp of any file. -/
theorem process_change_mono (s : Sync) (change : FileChange) (o : Observed) (f : String) :
    stored_le (s.watcher.modtimes f) ((process_change s change o).watcher.modtimes f) := by
  unfold process_change
  split
  · split
    · cases hs : s.watcher.modtimes change.filename with
      | none =>
        simp only [ModTimes.index, hs]
        split
        · by_cases hf : f = change.filename
          · subst hf
            simp [ModTimes.assign, hs, stored_le]
          · simp [ModTimes.assign, hf, stored_le_refl]
        · by_cases hf : f = change.filename
          · subst hf
            simp [ModTimes.assign, hs, stored_le]
          · simp [ModTimes.assign, hf, stored_le_refl]
      | some v =>
        simp only [ModTimes.index, hs]
        split
        · by_cases hf : f = change.filename
          · subst hf
            simp only [ModTimes.assign, hs, if_true, stored_le]
            omega
          · simp [ModTimes.assign, hf, stored_le_refl]
        · exact stored_le_refl _
    · exact stored_le_refl _
  · exact stored_le_refl _

theorem ModTimes.read_eq (m : ModTimes) (k : String) : m.read k = (m k).getD 0 := by
  unfold ModTimes.read ModTimes.index
  cases m k <;> rfl

/-- One iteration never lowers the value `modtimes[f]` yields. -/
theorem process_change_read_mono (s : Sync) (change : FileChange) (o : Observed) (f : String) :
    s.watcher.modtimes.read f ≤ (process_change s change o).watcher.modtimes.read f := by
  simp only [ModTimes.read_eq]
  unfold process_change
  split
  · split
    · cases hs : s.watcher.modtimes change.filename with
      | none =>
        simp only [ModTimes.index, hs]
        split
        · by_cases hf : f = change.filename
          · subst hf
            simp [ModTimes.assign, hs]
            omega
          · simp [ModTimes.assign, hf]
        · by_cases hf : f = change.filename
          · subst hf
            simp [ModTimes.assign, hs]
          · simp [ModTimes.assign, hf]
      | some v =>
        simp only [ModTimes.index, hs]
        split
        · by_cases hf : f = change.filename
          · subst hf
            simp [ModTimes.assign, hs]
            omega
          · simp [ModTimes.assign, hf]
        · exact le_refl _
    · exact le_refl _
  · exact le_refl _

/-- Along the states a step function produces, a reflexive and transitive relation that
every step respects holds between each state and every later one. -/
theorem scanl_reaches {σ ε : Type} (step : σ → ε → σ) (R : σ → σ → Prop)
    (hrefl : ∀ a, R a a) (htrans : ∀ a b c, R a b → R b c → R a c)
    (hstep : ∀ a e, R a (step a e)) :
    ∀ (es : List ε) (a : σ), ∀ b ∈ List.scanl step a es, R a b := by
  intro es
  induction es with
  | nil =>
    intro a b hb
    simp only [List.scanl, List.mem_singleton] at hb
    subst hb
    exact hrefl _
  | cons e es ih =>
    intro a b hb
    simp only [List.scanl, List.mem_cons] at hb
    rcases hb with hb | hb
    · subst hb
      exact hrefl _
    · exact htrans _ _ _ (hstep a e) (ih (step a e) b hb)

theorem scanl_pairwise {σ ε : Type} (step : σ → ε → σ) (R : σ → σ → Prop)
    (hrefl : ∀ a, R a a) (htrans : ∀ a b c, R a b → R b c → R a c)
    (hstep : ∀ a e, R a (step a e)) :
    ∀ (es : List ε) (a : σ), (List.scanl step a es).Pairwise R := by
  intro es
  induction es with
  | nil =>
    intro a
    simp [List.scanl]
  | cons e es ih =>
    intro a
    simp only [List.scanl, List.pairwise_cons]
    refine ⟨?_, ih (step a e)⟩
    intro b hb
    exact htrans _ _ _ (hstep a e) (scanl_reaches step R hrefl htrans hstep es (step a e) b hb)

theorem foldl_reaches {σ ε : Type} (step : σ → ε → σ) (R : σ → σ → Prop)
    (hrefl : ∀ a, R a a) (htrans : ∀ a b c, R a b → R b c → R a c)
    (hstep : ∀ a e, R a (step a e)) :
    ∀ (es : List ε) (a : σ), R a (List.foldl step a es) := by
  intro es
  induction es with
  | nil => intro a; exact hrefl a
  | cons e es ih => intro a; exact htrans _ _ _ (hstep a e) (ih (step a e))

/-- A change to a file with no stored timestamp whose observed modification time is not
above 0 makes no upload attempt and appends no log line; the value `modtimes[g]` yields is
the same for every file, the evaluation of `modtimes[f]` having bound the file to 0. -/
theorem process_change_absent_not_positive (s : Sync) (change : FileChange) (o : Observed)
    (habsent : s.watcher.modtimes change.filename = none) (hle : o.last_write_time ≤ 0) :
    (process_change s change o).uploads = s.uploads ∧
    (process_change s change o).app.watcher_log = s.app.watcher_log ∧
    ∀ g, (process_change s change o).watcher.modtimes.read g = s.watcher.modtimes.read g := by
  unfold process_change
  split
  · split
    · simp only [ModTimes.index, habsent]
      rw [if_neg (not_lt.mpr hle)]
      refine ⟨rfl, rfl, fun g => ?_⟩
      simp only [ModTimes.read_eq, ModTimes.assign]
      by_cases hg : g = change.filename
      · subst hg
        simp [habsent]
      · simp [hg]
    · exact ⟨rfl, rfl, fun _ => rfl⟩
  · exact ⟨rfl, rfl, fun _ => rfl⟩

/-- C2. A Modified change for a file whose current modification time is less than or
equal to the stored timestamp makes no upload attempt, appends no log line and leaves the
stored timestamp of every file as it was. -/
theorem stale_change_is_skipped (s : Sync) (change : FileChange) (o : Observed) (stored : Int)
    (hkind : change.type = FILE_ACTION_MODIFIED)
    (hstored : s.watcher.modtimes change.filename = some stored)
    (hle : o.last_write_time ≤ stored) :
    (process_change s change o).uploads = s.uploads ∧
    (process_change s change o).app.watcher_log = s.app.watcher_log ∧
    ∀ g, (process_change s change o).watcher.modtimes g = s.watcher.modtimes g := by
  have h := process_change_not_newer s change o stored hstored hle
  have _ := hkind
  rw [h]
  exact ⟨rfl, rfl, fun _ => rfl⟩

/-- The hypotheses of C2 hold for a file stored at 10 whose modification time is 10, and
the change is skipped. -/
theorem stale_change_is_skipped_witness :
    (ModTimes.empty.assign "a.txt" 10) "a.txt" = some 10 ∧ (10 : Int) ≤ 10 ∧
    (process_change { watcher := { modtimes := ModTimes.empty.assign "a.txt" 10 } }
        { filename := "a.txt", type := FILE_ACTION_MODIFIED }
        { is_regular_file := true, last_write_time := 10, upload_file := true }).uploads = [] ∧
    (process_change { watcher := { modtimes := ModTimes.empty.assign "a.txt" 10 } }
        { filename := "a.txt", type := FILE_ACTION_MODIFIED }
        { is_regular_file := true, last_write_time := 10, upload_file := true }).app.watcher_log
      = [] ∧
    (process_change { watcher := { modtimes := ModTimes.empty.assign "a.txt" 10 } }
        { filename := "a.txt", type := FILE_ACTION_MODIFIED }
        { is_regular_file := true, last_write_time := 10, upload_file := true }).watcher.modtimes
      "a.txt" = some 10 :=
  have h := stale_change_is_skipped
    { watcher := { modtimes := ModTimes.empty.assign "a.txt" 10 } }
    { filename := "a.txt", type := FILE_ACTION_MODIFIED }
    { is_regular_file := true, last_write_time := 10, upload_file := true } 10
    rfl (by simp [ModTimes.assign]) (le_refl _)
  ⟨by simp [ModTimes.assign], le_refl _, h.1, h.2.1, by rw [h.2.2]; simp [ModTimes.assign]⟩

/-- C3. Within a watch session the stored timestamp of a file never decreases: among the
states after each change, and among the states after each batch, every state holds for
every file a timestamp at least that of every earlier state, an absent entry counting
below every value; the value `modtimes[f]` yields never decreases either. -/
theorem sync_state_never_decreases (s : Sync) (batches : List (List (FileChange × Observed)))
    (f : String) :
    (trajectory s batches.flatten).Pairwise (fun a b =>
      stored_le (a.watcher.modtimes f) (b.watcher.modtimes f) ∧
      a.watcher.modtimes.read f ≤ b.watcher.modtimes.read f) ∧
    (session s batches).Pairwise (fun a b =>
      stored_le (a.watcher.modtimes f) (b.watcher.modtimes f) ∧
      a.watcher.modtimes.read f ≤ b.watcher.modtimes.read f) := by
  have hrefl : ∀ a : Sync, stored_le (a.watcher.modtimes f) (a.watcher.modtimes f) ∧
      a.watcher.modtimes.read f ≤ a.watcher.modtimes.read f :=
    fun a => ⟨stored_le_refl _, le_refl _⟩
  have htrans : ∀ a b c : Sync,
      (stored_le (a.watcher.modtimes f) (b.watcher.modtimes f) ∧
        a.watcher.modtimes.read f ≤ b.watcher.modtimes.read f) →
      (stored_le (b.watcher.modtimes f) (c.watcher.modtimes f) ∧
        b.watcher.modtimes.read f ≤ c.watcher.modtimes.read f) →
      (stored_le (a.watcher.modtimes f) (c.watcher.modtimes f) ∧
        a.watcher.modtimes.read f ≤ c.watcher.modtimes.read f) :=
    fun a b c h₁ h₂ => ⟨stored_le_trans h₁.1 h₂.1, le_trans h₁.2 h₂.2⟩
  have hstep : ∀ (a : Sync) (e : FileChange × Observed),
      stored_le (a.watcher.modtimes f) ((process_change a e.1 e.2).watcher.modtimes f) ∧
      a.watcher.modtimes.read f ≤ (process_change a e.1 e.2).watcher.modtimes.read f :=
    fun a e => ⟨process_change_mono a e.1 e.2 f, process_change_read_mono a e.1 e.2 f⟩
  constructor
  · exact scanl_pairwise _ _ hrefl htrans hstep _ _
  · refine scanl_pairwise _ _ hrefl htrans ?_ _ _
    intro a batch
    exact foldl_reaches _ _ hrefl htrans hstep batch a

/-- C9. A change whose kind is not Modified makes no upload attempt and leaves the stored
timestamps and the activity log as they were. -/
theorem other_kinds_are_ignored (s : Sync) (change : FileChange) (o : Observed)
    (hkind : change.type ≠ FILE_ACTION_MODIFIED) :
    (process_change s change o).uploads = s.uploads ∧
    (process_change s change o).watcher.modtimes = s.watcher.modtimes ∧
    (process_change s change o).app.watcher_log = s.app.watcher_log := by
  rw [process_change_other s change o hkind]
  exact ⟨rfl, rfl, rfl⟩

/-- An Added change for a file with a newer modification time is not Modified, and
changes nothing. -/
theorem other_kinds_are_ignored_witness :
    FILE_ACTION_ADDED ≠ FILE_ACTION_MODIFIED ∧
    (process_change { watcher := { modtimes := ModTimes.empty.assign "a.txt" 10 } }
        { filename := "a.txt", type := FILE_ACTION_ADDED }
        { is_regular_file := true, last_write_time := 20, upload_file := true }).uploads = [] ∧
    (process_change { watcher := { modtimes := ModTimes.empty.assign "a.txt" 10 } }
        { filename := "a.txt", type := FILE_ACTION_ADDED }
        { is_regular_file := true, last_write_time := 20, upload_file := true }).watcher.modtimes
      = ModTimes.empty.assign "a.txt" 10 ∧
    (process_change { watcher := { modtimes := ModTimes.empty.assign "a.txt" 10 } }
        { filename := "a.txt", type := FILE_ACTION_ADDED }
        { is_regular_file := true, last_write_time := 20, upload_file := true }).app.watcher_log
      = [] :=
  ⟨by decide,
   other_kinds_are_ignored { watcher := { modtimes := ModTimes.empty.assign "a.txt" 10 } }
    { filename := "a.txt", type := FILE_ACTION_ADDED }
    { is_regular_file := true, last_write_time := 20, upload_file := true } (by decide)⟩

/-- C1, as stated, fails for a modification time of 0: starting with no entry for
"report.txt", two identical Modified changes for the file, an existing regular file whose
modification time is 0 both times, make no upload attempt at all, not one. -/
theorem first_change_at_mtime_zero_not_uploaded :
    ({} : Sync).watcher.modtimes "report.txt" = none ∧
    (process_change
        (process_change {} { filename := "report.txt", type := FILE_ACTION_MODIFIED }
          { is_regular_file := true, last_write_time := 0, upload_file := true })
        { filename := "report.txt", type := FILE_ACTION_MODIFIED }
        { is_regular_file := true, last_write_time := 0, upload_file := true }).uploads = [] := by
  constructor
  · rfl
  · simp [process_change, ModTimes.index, ModTimes.assign, ModTimes.empty]

/-- C1, amended. Starting from a state with no entry for the file (an absent entry counts
as 0), for every modification time `T > 0`: of two identical Modified changes for the file,
an existing regular file whose modification time is `T` both times, the first makes one
upload attempt, records `T` and appends one log line, and the second changes nothing, so
there is exactly one upload attempt in total. -/
theorem repeated_change_uploads_once (s : Sync) (f : String) (T : Int) (r₁ r₂ : Bool)
    (habsent : s.watcher.modtimes f = none) (hpos : 0 < T) :
    (process_change s { filename := f, type := FILE_ACTION_MODIFIED }
        { is_regular_file := true, last_write_time := T, upload_file := r₁ }).uploads
      = s.uploads ++ [(f, r₁)] ∧
    (process_change s { filename := f, type := FILE_ACTION_MODIFIED }
        { is_regular_file := true, last_write_time := T, upload_file := r₁ }).watcher.modtimes f
      = some T ∧
    (process_change s { filename := f, type := FILE_ACTION_MODIFIED }
        { is_regular_file := true, last_write_time := T, upload_file := r₁ }).app.watcher_log
      = s.app.watcher_log ++ [f ++ ": modified"] ∧
    (process_change
        (process_change s { filename := f, type := FILE_ACTION_MODIFIED }
          { is_regular_file := true, last_write_time := T, upload_file := r₁ })
        { filename := f, type := FILE_ACTION_MODIFIED }
        { is_regular_file := true, last_write_time := T, upload_file := r₂ }).uploads
      = s.uploads ++ [(f, r₁)] := by
  have h₁ : process_change s { filename := f, type := FILE_ACTION_MODIFIED }
      { is_regular_file := true, last_write_time := T, upload_file := r₁ } =
      { watcher := { s.watcher with modtimes := (s.watcher.modtimes.assign f 0).assign f T }
        app := { s.app with watcher_log := s.app.watcher_log ++ [f ++ ": modified"] }
        uploads := s.uploads ++ [(f, r₁)] } := by
    simp [process_change, ModTimes.index, habsent, hpos]
  have h₂ := process_change_not_newer
    (process_change s { filename := f, type := FILE_ACTION_MODIFIED }
      { is_regular_file := true, last_write_time := T, upload_file := r₁ })
    { filename := f, type := FILE_ACTION_MODIFIED }
    { is_regular_file := true, last_write_time := T, upload_file := r₂ } T
    (by rw [h₁]; simp [ModTimes.assign]) (le_refl _)
  rw [h₂, h₁]
  exact ⟨rfl, by simp [ModTimes.assign], rfl, rfl⟩

/-- Scenario A with modification time 5: "report.txt" is uploaded once. -/
theorem repeated_change_uploads_once_witness :
    ({} : Sync).watcher.modtimes "report.txt" = none ∧ (0 : Int) < 5 ∧
    (process_change
        (process_change {} { filename := "report.txt", type := FILE_ACTION_MODIFIED }
          { is_regular_file := true, last_write_time := 5, upload_file := false })
        { filename := "report.txt", type := FILE_ACTION_MODIFIED }
        { is_regular_file := true, last_write_time := 5, upload_file := true }).uploads
      = [("report.txt", false)] :=
  ⟨rfl, by decide,
   (repeated_change_uploads_once {} "report.txt" 5 false true rfl (by decide)).2.2.2⟩

/-! ## Properties of `upload_file` -/

/-- The optional that `read_entire_file` returns is engaged whatever the path holds. -/
theorem read_entire_file_engaged (disk : Option String) :
    read_entire_file disk = some (String.mk (text_mode (disk.getD "").data)) := by
  cases disk <;> rfl

/-- Text mode delivers no more bytes than the file holds. -/
theorem text_mode_length_le (bytes : List Char) : (text_mode bytes).length ≤ bytes.length := by
  induction bytes with
  | nil => simp [text_mode]
  | cons c rest ih =>
    unfold text_mode
    split
    · simp
    · split
      · simp only [List.length_cons]; omega
      · simp only [List.length_cons]; omega

/-- Text mode delivers a file with no 0x1A and no pair CR LF as it is. -/
theorem text_mode_of_plain (bytes : List Char) (hplain : plain bytes = true) :
    text_mode bytes = bytes := by
  induction bytes with
  | nil => rfl
  | cons c rest ih =>
    unfold plain at hplain
    simp only [Bool.and_eq_true, Bool.not_eq_true', decide_eq_false_iff_not] at hplain
    obtain ⟨⟨h1, h2⟩, h3⟩ := hplain
    unfold text_mode
    rw [if_neg h1, if_neg h2, ih h3]

/-- On a count that the subtrahend does not exceed, `len -= read` is plain subtraction. -/
theorem u64_sub_exact (len : Nat) (read : Int) (hpos : 0 < read) (hle : read ≤ len)
    (hlen : len < 2 ^ 64) :
    ((u64_sub len read : Nat) : Int) = len - read ∧ u64_sub len read < 2 ^ 64 := by
  unfold u64_sub
  have h2 : (2 : Int) ^ 64 = 18446744073709551616 := by norm_num
  have h3 : (2 : Nat) ^ 64 = 18446744073709551616 := by norm_num
  rw [h2]
  rw [h3] at *
  omega

/-- When the transport keeps within the count and the loop returns true, `len` has reached
0, `ptr` has advanced over the whole of what was left, and the results of the calls made
add up to it. -/
theorem write_loop_true (ws : List Int) :
    ∀ (ptr : Int) (len : Nat) (reqs : List (Int × Nat)), len < 2 ^ 64 →
      accepts_within ws len → (write_loop ws ptr len reqs).ret = some true →
      (write_loop ws ptr len reqs).len = 0 ∧
      (write_loop ws ptr len reqs).sent = ptr + len ∧
      ∃ k, (write_loop ws ptr len reqs).requests.length = reqs.length + k ∧
        (ws.take k).sum = (len : Int) := by
  induction ws with
  | nil =>
    intro ptr len reqs _ _ h
    simp [write_loop] at h
  | cons read rest ih =>
    intro ptr len reqs hlen hacc h
    unfold write_loop at h ⊢
    unfold accepts_within at hacc
    by_cases hneg : read < 0
    · simp [hneg] at h
    · by_cases hzero : read = 0
      · subst hzero
        have hl : len = 0 := by
          by_contra hne
          exact hacc.1.2 (Nat.pos_of_ne_zero hne) rfl
        subst hl
        refine ⟨?_, ?_, 1, ?_, ?_⟩ <;> simp
      · have hpos : 0 < read := by omega
        simp only [hneg, hzero, if_false] at h ⊢
        obtain ⟨hcast, hlt⟩ := u64_sub_exact len read hpos hacc.1.1 hlen
        obtain ⟨h1, h2, k, hk, hsum⟩ := ih (ptr + read) (u64_sub len read)
          (reqs ++ [(ptr, len)]) hlt (hacc.2 hpos) h
        refine ⟨h1, ?_, k + 1, ?_, ?_⟩
        · rw [h2, hcast]; ring
        · rw [hk]; simp; ring
        · simp only [List.take_succ_cons, List.sum_cons, hsum, hcast]; ring

/-- C4, as stated, fails on local files of 5 bytes. For "hello", when the first call of
`libssh2_sftp_write` returns 0, `upload_file` returns true with all 5 bytes unwritten; when
the first call returns 7 and the second 0, `upload_file` returns true with `len` wrapped
around to 2^64 - 2 and accepted counts that add up to 7. For the 5 bytes "a", CR, LF, "b",
0x1A, read in text mode as the 3 bytes "a", LF, "b", a transport that accepts all it is
given makes `upload_file` return true with accepted counts that add up to 3. -/
theorem upload_true_with_bytes_unaccounted :
    upload_file { open_ok := true, disk := some "hello", writes := [0] } =
      { ret := some true, sent := 0, len := 5, requests := [(0, 5)] } ∧
    upload_file { open_ok := true, disk := some "hello", writes := [7, 0] } =
      { ret := some true, sent := 7, len := 2 ^ 64 - 2,
        requests := [(0, 5), (7, 2 ^ 64 - 2)] } ∧
    "a\r\nb\x1a".length = 5 ∧
    upload_file { open_ok := true, disk := some "a\r\nb\x1a", writes := [3, 0] } =
      { ret := some true, sent := 3, len := 0, requests := [(0, 3), (3, 0)] } := by
  refine ⟨?_, ?_, ?_, ?_⟩ <;> decide

/-- C4, amended. For every local file content and every sequence of write results in which
each call the loop makes accepts at most the bytes remaining, and not 0 while bytes remain:
if `upload_file` returns true then zero bytes of the buffer read from the file remain
unwritten, `ptr` has advanced over the whole buffer, and the byte counts of the calls made
add up to the length of the buffer; that is the length of the file when the file holds no
0x1A and no pair CR LF. -/
theorem upload_true_means_all_written (open_ok : Bool) (contents : String) (writes : List Int)
    (hsize : contents.length < 2 ^ 64)
    (hacc : accepts_within writes (text_mode contents.data).length)
    (htrue : (upload_file { open_ok := open_ok, disk := some contents, writes := writes }).ret
      = some true) :
    (upload_file { open_ok := open_ok, disk := some contents, writes := writes }).len = 0 ∧
    (upload_file { open_ok := open_ok, disk := some contents, writes := writes }).sent
      = (text_mode contents.data).length ∧
    (writes.take
      (upload_file { open_ok := open_ok, disk := some contents, writes := writes }).requests.length).sum
      = ((text_mode contents.data).length : Int) ∧
    (plain contents.data = true →
      (writes.take
        (upload_file { open_ok := open_ok, disk := some contents, writes := writes }).requests.length).sum
        = (contents.length : Int)) := by
  have hbuf : (text_mode contents.data).length < 2 ^ 64 :=
    lt_of_le_of_lt (text_mode_length_le contents.data) hsize
  cases open_ok with
  | false => simp [upload_file] at htrue
  | true =>
    have hrun : upload_file { open_ok := true, disk := some contents, writes := writes } =
        write_loop writes 0 (text_mode contents.data).length [] := rfl
    rw [hrun] at htrue ⊢
    obtain ⟨h1, h2, k, hk, hsum⟩ :=
      write_loop_true writes 0 (text_mode contents.data).length [] hbuf hacc htrue
    have hk' : (write_loop writes 0 (text_mode contents.data).length []).requests.length = k := by
      simpa using hk
    refine ⟨h1, by rw [h2]; simp, by rw [hk']; exact hsum, ?_⟩
    intro hplain
    rw [hk', hsum, text_mode_of_plain _ hplain]
    rfl

/-- A file of 5 bytes accepted as 2 and then 3 bytes, the closing call of 0 bytes returning
0: the hypotheses of the amended C4 hold, nothing remains and the counts add up to 5. -/
theorem upload_true_means_all_written_witness :
    accepts_within [2, 3, 0] (text_mode "hello".data).length ∧
    plain "hello".data = true ∧
    (upload_file { open_ok := true, disk := some "hello", writes := [2, 3, 0] }).ret
      = some true ∧
    (upload_file { open_ok := true, disk := some "hello", writes := [2, 3, 0] }).len = 0 ∧
    ([2, 3, 0].take
      (upload_file { open_ok := true, disk := some "hello", writes := [2, 3, 0] }).requests.length).sum
      = (("hello".length : Nat) : Int) :=
  have h := upload_true_means_all_written true "hello" [2, 3, 0] (by decide) (by decide)
    (by decide)
  ⟨by decide, by decide, by decide, h.1, h.2.2.2 (by decide)⟩

/-- C5, evaluated where it fails: when the local file cannot be opened, the remote open
succeeds and the write of 0 bytes returns 0, `upload_file` returns true; no content makes
`read_entire_file` return an empty optional, so the `return false` after it is never
taken. -/
theorem upload_of_unreadable_file_returns_true :
    (∀ disk, read_entire_file disk ≠ none) ∧
    upload_file { open_ok := true, disk := none, writes := [0] } =
      { ret := some true, sent := 0, len := 0, requests := [(0, 0)] } := by
  constructor
  · intro disk
    rw [read_entire_file_engaged]
    exact Option.some_ne_none _
  · decide

/-! ## Properties of `server_connect` -/

/-- C6. `server_connect` yields a `Net` exactly when connect, session creation, handshake,
the advertisement of "publickey", key authentication and SFTP initialisation all succeed,
and the `Net` holds the handles obtained; when it yields none, a disconnected `Net` of the
caller stays disconnected; and when the list of authentication methods does not contain
"publickey" it yields none without calling `libssh2_userauth_publickey_fromfile`. -/
theorem server_connect_iff_all_steps_succeed (e : Server) :
    ((server_connect e).1 =
        some { session := e.session_init, sftp := e.sftp_init, sock := e.socket } ↔
      (e.connect = 0 ∧ e.session_init ≠ 0 ∧ e.handshake = 0 ∧
        strstr e.userauth_list.data "publickey".data = true ∧
        e.userauth_publickey = 0 ∧ e.sftp_init ≠ 0)) ∧
    (¬ (e.connect = 0 ∧ e.session_init ≠ 0 ∧ e.handshake = 0 ∧
        strstr e.userauth_list.data "publickey".data = true ∧
        e.userauth_publickey = 0 ∧ e.sftp_init ≠ 0) →
      (server_connect e).1 = none ∧ connect_button e {} = {}) ∧
    (strstr e.userauth_list.data "publickey".data = false →
      (server_connect e).1 = none ∧ Call.userauth_publickey ∉ (server_connect e).2) := by
  unfold connect_button server_connect
  by_cases h1 : e.connect = 0 <;> by_cases h2 : e.session_init = 0 <;>
    by_cases h3 : e.handshake = 0 <;>
    by_cases h4 : strstr e.userauth_list.data "publickey".data = true <;>
    by_cases h5 : e.userauth_publickey = 0 <;> by_cases h6 : e.sftp_init = 0 <;>
    simp [h1, h2, h3, h4, h5, h6]

/-- Scenario B: a server that advertises only "password,keyboard-interactive" gets no
connection, and key authentication is not attempted. -/
theorem server_connect_iff_all_steps_succeed_witness :
    strstr "password,keyboard-interactive".data "publickey".data = false ∧
    (server_connect
      { socket := 3, connect := 0, session_init := 1, handshake := 0,
        userauth_list := "password,keyboard-interactive", userauth_publickey := 0,
        sftp_init := 2 }).1 = none ∧
    Call.userauth_publickey ∉
      (server_connect
        { socket := 3, connect := 0, session_init := 1, handshake := 0,
          userauth_list := "password,keyboard-interactive", userauth_publickey := 0,
          sftp_init := 2 }).2 :=
  ⟨by decide,
   (server_connect_iff_all_steps_succeed
      { socket := 3, connect := 0, session_init := 1, handshake := 0,
        userauth_list := "password,keyboard-interactive", userauth_publickey := 0,
        sftp_init := 2 }).2.2 (by decide)⟩

/-! ## Properties of the directory listings -/

/-- The result of `std_sort` under the comparison of names is ordered by name. -/
theorem std_sort_by_name_sorted (l : List File) :
    (std_sort (fun lhs rhs => decide (lhs.name < rhs.name)) l).Sorted
      (fun a b => a.name ≤ b.name) := by
  unfold std_sort
  haveI : IsTotal File (fun a b => decide (b.name < a.name) = false) :=
    ⟨fun a b => by
      simp only [decide_eq_false_iff_not, not_lt]
      exact le_total a.name b.name⟩
  haveI : IsTrans File (fun a b => decide (b.name < a.name) = false) :=
    ⟨fun a b c hab hbc => by
      simp only [decide_eq_false_iff_not, not_lt] at hab hbc ⊢
      exact le_trans hab hbc⟩
  have h := List.sorted_insertionSort (fun a b : File => decide (b.name < a.name) = false) l
  refine List.Pairwise.imp ?_ h
  intro a b hab
  simpa only [decide_eq_false_iff_not, not_lt] using hab

/-- The result of `std_sort` is a rearrangement of its input. -/
theorem std_sort_perm {α : Type} (comp : α → α → Bool) (l : List α) :
    (std_sort comp l).Perm l :=
  List.perm_insertionSort _ l

/-- C7. Whatever entries the server returns and in whatever order, `read_remote_dir`
returns a listing, the listing is sorted ascending by name, and it is a rearrangement of the
entries read. -/
theorem read_remote_dir_sorted (results : List Readdir) :
    ∃ listing, read_remote_dir (some results) = some listing ∧
      listing.Sorted (fun a b => a.name ≤ b.name) ∧
      listing.Perm (read_entries results []) :=
  ⟨_, rfl, std_sort_by_name_sorted _, std_sort_perm _ _⟩

/-- A remote directory delivered as "b.txt", ".", "a" (a directory), ".." is listed as
"a", "b.txt". -/
theorem read_remote_dir_example :
    read_remote_dir (some
      [ { len := 5, buf := "b.txt", attrs := { flags := 1, filesize := 7, permissions := 0o100644 } },
        { len := 1, buf := "." },
        { len := 1, buf := "a", attrs := { permissions := 0o040755 } },
        { len := 2, buf := ".." },
        { len := 0, buf := "" } ]) =
    some [ { name := "a", kind := FileKind.Dir, size := 0 },
           { name := "b.txt", kind := FileKind.File, size := 7 } ] := by
  simp only [read_remote_dir, std_sort, String.lt_iff_toList_lt]
  decide

/-- The listing `change_local_dir` stores holds the names in the order of the iteration. -/
theorem change_local_dir_names (app : App) (config : Config) (path : String)
    (entries : List DirectoryEntry) :
    (change_local_dir app config path entries).1.local_working_dir.map File.name =
      entries.map DirectoryEntry.filename := by
  simp [change_local_dir, Function.comp_def]

/-- C8, evaluated where it fails: when the directory iterator yields "b.txt" before
"a.txt", `change_local_dir` stores the listing in that order, which is not ascending. -/
theorem change_local_dir_keeps_iteration_order :
    (change_local_dir {} {} "."
        [ { filename := "b.txt", is_directory := false, file_size := 1 },
          { filename := "a.txt", is_directory := false, file_size := 2 } ]).1.local_working_dir =
      [ { name := "b.txt", kind := FileKind.File, size := 1 },
        { name := "a.txt", kind := FileKind.File, size := 2 } ] ∧
    ¬ (change_local_dir {} {} "."
        [ { filename := "b.txt", is_directory := false, file_size := 1 },
          { filename := "a.txt", is_directory := false, file_size := 2 } ]).1.local_working_dir.Sorted
      (fun a b => a.name ≤ b.name) := by
  constructor
  · rfl
  · intro h
    simp only [change_local_dir, List.map, List.Sorted, List.pairwise_cons] at h
    have h' := h.1 _ (List.mem_singleton.mpr rfl)
    rw [← not_lt, String.lt_iff_toList_lt] at h'
    exact h' (by decide)

/-! ## Properties of stopping the watcher -/

/-- C10, as stated, fails when a handle cannot be closed: `watcher_destroy` on a running
watcher that remembers a timestamp for "a.txt", with `CloseHandle(watcher->dir)` failing,
returns false and leaves the watcher running with the timestamp still remembered. -/
theorem watcher_destroy_failure_keeps_state :
    FileWatcher.running { hEvent := 8, dir := 7, modtimes := ModTimes.empty.assign "a.txt" 5 }
      = true ∧
    (watcher_destroy { hEvent := 8, dir := 7, modtimes := ModTimes.empty.assign "a.txt" 5 }
      true false).1 = false ∧
    (watcher_destroy { hEvent := 8, dir := 7, modtimes := ModTimes.empty.assign "a.txt" 5 }
      true false).2.running = true ∧
    (watcher_destroy { hEvent := 8, dir := 7, modtimes := ModTimes.empty.assign "a.txt" 5 }
      true false).2.modtimes "a.txt" = some 5 := by
  refine ⟨by decide, rfl, by decide, ?_⟩
  simp [watcher_destroy, ModTimes.assign]

/-- C10, amended. After `watcher_destroy` returns true on a running watcher, the watcher
is in the not-running state and `modtimes` is empty, and `modtimes` is still empty after the
`watcher_init` that starts the next session. -/
theorem watcher_destroy_success_resets (w : FileWatcher) (close_hEvent close_dir : Bool)
    (e : InitCalls) (hrun : w.running = true)
    (hok : (watcher_destroy w close_hEvent close_dir).1 = true) :
    (watcher_destroy w close_hEvent close_dir).2.running = false ∧
    (watcher_destroy w close_hEvent close_dir).2.modtimes = ModTimes.empty ∧
    (watcher_init (watcher_destroy w close_hEvent close_dir).2 e).1.modtimes = ModTimes.empty := by
  have _ := hrun
  cases close_hEvent <;> cases close_dir <;> simp [watcher_destroy] at hok ⊢
  exact ⟨by decide, rfl⟩

/-- A running watcher that remembers a timestamp is stopped with both handles closing:
the hypotheses of the amended C10 hold and the timestamps are gone. -/
theorem watcher_destroy_success_resets_witness :
    FileWatcher.running { hEvent := 8, dir := 7, modtimes := ModTimes.empty.assign "a.txt" 5 }
      = true ∧
    (watcher_destroy { hEvent := 8, dir := 7, modtimes := ModTimes.empty.assign "a.txt" 5 }
      true true).1 = true ∧
    (watcher_destroy { hEvent := 8, dir := 7, modtimes := ModTimes.empty.assign "a.txt" 5 }
      true true).2.running = false ∧
    (watcher_destroy { hEvent := 8, dir := 7, modtimes := ModTimes.empty.assign "a.txt" 5 }
      true true).2.modtimes = ModTimes.empty :=
  have h := watcher_destroy_success_resets
    { hEvent := 8, dir := 7, modtimes := ModTimes.empty.assign "a.txt" 5 } true true
    { CreateFile := 9, CreateEvent := 10, malloc := 11, ReadDirectoryChangesW := true }
    (by decide) rfl
  ⟨by decide, rfl, h.1, h.2.1⟩

/-! ## Properties of `watcher_poll` -/

/-- The loop of `watcher_poll` appends to the batch the changes of the delivered records,
in their order. -/
theorem drain_eq (wcstombs_s : List Nat → Option String) (buffer : List NotifyInformation) :
    ∀ changes, drain wcstombs_s buffer changes =
      changes ++ (delivered buffer).filterMap (decoded wcstombs_s) := by
  induction buffer with
  | nil => intro changes; simp [drain, delivered]
  | cons info next ih =>
    intro changes
    unfold drain delivered
    by_cases ha : info.Action = 0
    · by_cases hn : info.NextEntryOffset = 0
      · simp [ha, hn, decoded, delivered]
      · simp [ha, hn, decoded, ih]
    · cases hd : wcstombs_s (info.FileName.take (info.FileNameLength / 2)) with
      | none =>
        by_cases hn : info.NextEntryOffset = 0
        · simp [ha, hn, hd, decoded, delivered]
        · simp [ha, hn, hd, decoded, ih]
      | some filename =>
        by_cases hn : info.NextEntryOffset = 0
        · simp [ha, hn, hd, decoded, delivered]
        · simp [ha, hn, hd, decoded, ih]

/-- C14. When a notification is ready (the watcher runs, has its event, and the wait
returns `WAIT_OBJECT_0`), the batch `watcher_poll` leaves in `watcher->changes` is exactly
the delivered records whose action is not 0 and whose file name converts, in the order
delivered, whatever the batch held before; a record that does not convert is left out and
the others stay. In every other case the batch is empty. -/
theorem watcher_poll_batch (wcstombs_s : List Nat → Option String) (w : FileWatcher)
    (e : PollCalls) :
    (w.running = true ∧ w.hEvent ≠ 0 ∧ e.WaitForSingleObject = WAIT_OBJECT_0 →
      (watcher_poll wcstombs_s w e).1.changes =
        (delivered e.buffer).filterMap (decoded wcstombs_s)) ∧
    (¬ (w.running = true ∧ w.hEvent ≠ 0 ∧ e.WaitForSingleObject = WAIT_OBJECT_0) →
      (watcher_poll wcstombs_s w e).1.changes = []) := by
  have hrun : FileWatcher.running { w with changes := [] } = w.running := rfl
  constructor
  · rintro ⟨h1, h2, h3⟩
    simp [watcher_poll, hrun, h1, h2, h3, drain_eq]
  · intro h
    unfold watcher_poll
    simp only [hrun]
    by_cases h1 : w.running = true
    · by_cases h2 : w.hEvent = 0
      · simp [h1, h2]
      · by_cases h3 : e.WaitForSingleObject = WAIT_OBJECT_0
        · exact absurd ⟨h1, h2, h3⟩ h
        · simp [h1, h2, h3]
    · simp [h1]

/-- C11, amended. The notification request issued by `watcher_init`, and the one
`watcher_poll` issues whenever it re-arms the wait, ask for changes in the whole subtree of
the watched directory: `bWatchSubtree` is true in both. -/
theorem notify_requests_ask_for_subtree (wcstombs_s : List Nat → Option String)
    (w : FileWatcher) (i : InitCalls) (p : PollCalls) :
    (watcher_init w i).2.bWatchSubtree = true ∧
    (w.running = true ∧ w.hEvent ≠ 0 ∧ p.WaitForSingleObject = WAIT_OBJECT_0 →
      ∃ request, (watcher_poll wcstombs_s w p).2 = some request ∧
        request.bWatchSubtree = true) ∧
    (∀ request, (watcher_poll wcstombs_s w p).2 = some request →
      request.bWatchSubtree = true) := by
  have hrun : FileWatcher.running { w with changes := [] } = w.running := rfl
  refine ⟨rfl, ?_, ?_⟩
  · rintro ⟨h1, h2, h3⟩
    simp [watcher_poll, hrun, h1, h2, h3]
  · intro request h
    unfold watcher_poll at h
    simp only [hrun] at h
    by_cases h1 : w.running = true
    · by_cases h2 : w.hEvent = 0
      · simp [h1, h2] at h
      · by_cases h3 : p.WaitForSingleObject = WAIT_OBJECT_0
        · simp [h1, h2, h3] at h
          rw [← h]
        · simp [h1, h2, h3] at h
    · simp [h1] at h

/-- C13. For a Modified change on an existing regular file whose modification time `T` is
above the stored value (the value `modtimes[f]` yields), the stored timestamp becomes `T` and
one log line is appended; the stored timestamps and the log are the same whether
`upload_file` returns true or false, and after a failed upload the same notification with
the same modification time changes nothing, so no second upload is attempted. -/
theorem upload_result_does_not_change_state (s : Sync) (f : String) (T : Int)
    (hnewer : s.watcher.modtimes.read f < T) :
    (process_change s { filename := f, type := FILE_ACTION_MODIFIED }
        { is_regular_file := true, last_write_time := T, upload_file := true }).watcher.modtimes f
      = some T ∧
    (process_change s { filename := f, type := FILE_ACTION_MODIFIED }
        { is_regular_file := true, last_write_time := T, upload_file := true }).app.watcher_log
      = s.app.watcher_log ++ [f ++ ": modified"] ∧
    (process_change s { filename := f, type := FILE_ACTION_MODIFIED }
        { is_regular_file := true, last_write_time := T, upload_file := false }).watcher.modtimes
      = (process_change s { filename := f, type := FILE_ACTION_MODIFIED }
        { is_regular_file := true, last_write_time := T, upload_file := true }).watcher.modtimes ∧
    (process_change s { filename := f, type := FILE_ACTION_MODIFIED }
        { is_regular_file := true, last_write_time := T, upload_file := false }).app.watcher_log
      = (process_change s { filename := f, type := FILE_ACTION_MODIFIED }
        { is_regular_file := true, last_write_time := T, upload_file := true }).app.watcher_log ∧
    (process_change s { filename := f, type := FILE_ACTION_MODIFIED }
        { is_regular_file := true, last_write_time := T, upload_file := false }).uploads
      = s.uploads ++ [(f, false)] ∧
    ∀ r, process_change
        (process_change s { filename := f, type := FILE_ACTION_MODIFIED }
          { is_regular_file := true, last_write_time := T, upload_file := false })
        { filename := f, type := FILE_ACTION_MODIFIED }
        { is_regular_file := true, last_write_time := T, upload_file := r }
      = process_change s { filename := f, type := FILE_ACTION_MODIFIED }
          { is_regular_file := true, last_write_time := T, upload_file := false } := by
  have hstep : ∀ r, process_change s { filename := f, type := FILE_ACTION_MODIFIED }
      { is_regular_file := true, last_write_time := T, upload_file := r } =
      { watcher := { s.watcher with
          modtimes := (s.watcher.modtimes.index f).1.assign f T }
        app := { s.app with watcher_log := s.app.watcher_log ++ [f ++ ": modified"] }
        uploads := s.uploads ++ [(f, r)] } := by
    intro r
    have h : (s.watcher.modtimes.index f).2 < T := hnewer
    simp [process_change, h]
  refine ⟨?_, ?_, ?_, ?_, ?_, ?_⟩
  · rw [hstep]; simp [ModTimes.assign]
  · rw [hstep]
  · rw [hstep, hstep]
  · rw [hstep, hstep]
  · rw [hstep]
  · intro r
    apply process_change_not_newer _ _ _ T
    · rw [hstep]; simp [ModTimes.assign]
    · exact le_refl _
/-! ## Properties of `read_config` -/

/-- C11, as stated, fails: the request of `watcher_init` and the request `watcher_poll`
issues when it re-arms both have `bWatchSubtree` set, so changes in subdirectory trees are
asked for. -/
theorem notify_requests_are_recursive :
    (watcher_init {}
      { CreateFile := 7, CreateEvent := 8, malloc := 9,
        ReadDirectoryChangesW := true }).2.bWatchSubtree = true ∧
    (watcher_poll (fun _ => none) { hEvent := 8, dir := 7, buf := 9, buf_size := 4096 }
      { WaitForSingleObject := WAIT_OBJECT_0, buffer := [] }).2 =
      some { nBufferLength := 4096, bWatchSubtree := true, dwNotifyFilter := 0x13 } := by
  decide

/-- A running watcher whose wait is signalled re-arms, and the request asks for the
subtree. -/
theorem notify_requests_ask_for_subtree_witness :
    FileWatcher.running { hEvent := 8, dir := 7, buf := 9, buf_size := 4096 } = true ∧
    ∃ request,
      (watcher_poll (fun _ => none) { hEvent := 8, dir := 7, buf := 9, buf_size := 4096 }
        { WaitForSingleObject := WAIT_OBJECT_0, buffer := [] }).2 = some request ∧
      request.bWatchSubtree = true :=
  ⟨by decide,
   (notify_requests_ask_for_subtree (fun _ => none)
      { hEvent := 8, dir := 7, buf := 9, buf_size := 4096 }
      { CreateFile := 7, CreateEvent := 8, malloc := 9, ReadDirectoryChangesW := true }
      { WaitForSingleObject := WAIT_OBJECT_0, buffer := [] }).2.1
      ⟨by decide, by decide, rfl⟩⟩

/-- A file stored at 10 whose modification time is 20: the timestamp is recorded whether
the upload fails or not. -/
theorem upload_result_does_not_change_state_witness :
    (ModTimes.empty.assign "a.txt" 10).read "a.txt" < 20 ∧
    (process_change { watcher := { modtimes := ModTimes.empty.assign "a.txt" 10 } }
        { filename := "a.txt", type := FILE_ACTION_MODIFIED }
        { is_regular_file := true, last_write_time := 20, upload_file := true }).watcher.modtimes
      "a.txt" = some 20 :=
  ⟨by decide,
   (upload_result_does_not_change_state
      { watcher := { modtimes := ModTimes.empty.assign "a.txt" 10 } } "a.txt" 20
      (by decide)).1⟩

/-- A notification of four records: a modified "a", an added name that does not convert,
a record with action 0, and an added "cd" that closes the chain; the record after it is
not part of the notification. The batch is "a" and "cd", and what the batch held before
is gone. -/
theorem watcher_poll_batch_witness :
    FileWatcher.running { hEvent := 8, dir := 7, changes := [{ filename := "old", type := 3 }] }
      = true ∧
    (watcher_poll
        (fun ws => if ws.all (fun w => decide (w < 256)) then some (String.mk (ws.map Char.ofNat))
          else none)
        { hEvent := 8, dir := 7, changes := [{ filename := "old", type := 3 }] }
        { WaitForSingleObject := WAIT_OBJECT_0,
          buffer := [⟨16, 3, 2, [97]⟩, ⟨16, 1, 2, [0x4e2d]⟩, ⟨16, 0, 2, [98]⟩,
            ⟨0, 1, 4, [99, 100]⟩, ⟨0, 1, 2, [101]⟩] }).1.changes =
      [{ filename := "a", type := 3 }, { filename := "cd", type := 1 }] :=
  ⟨by decide,
   ((watcher_poll_batch
      (fun ws => if ws.all (fun w => decide (w < 256)) then some (String.mk (ws.map Char.ofNat))
        else none)
      { hEvent := 8, dir := 7, changes := [{ filename := "old", type := 3 }] }
      { WaitForSingleObject := WAIT_OBJECT_0,
        buffer := [⟨16, 3, 2, [97]⟩, ⟨16, 1, 2, [0x4e2d]⟩, ⟨16, 0, 2, [98]⟩,
          ⟨0, 1, 4, [99, 100]⟩, ⟨0, 1, 2, [101]⟩] }).1
      ⟨by decide, by decide, rfl⟩).trans (by decide)⟩

end FileSink
